import Mathlib

/-!
Verification of the episodic task orchestrator in
`scripts/data_collection_automatic.py` (function `main`, lines 274-469).

The orchestrator drives an opaque grasp state machine through a stepped
simulation by injecting simulated key presses, polling for completion under
timeout budgets, detecting critical failures, and tallying successes.
The grasp state machine itself, the keyboard handler and the simulation
world are external collaborators reachable only through a narrow contract;
they are embedded as abstract interfaces, and deterministic mocks are used
to instantiate them where a claim speaks of mocked machines.
-/

namespace SO101

/-- The four stepping phases of one loop iteration of `main`:
the 10-frame warmup (lines 310-325), the completion wait (lines 328-358),
the return-to-idle wait (lines 383-399) and the scene-reset wait
(lines 412-443). -/
inductive Phase
  | warmup
  | awaitCompletion
  | awaitIdle
  | resetWait
deriving DecidableEq, Repr

/-- Observable events emitted by the orchestrator, used to state trace
properties.  `keyPress c st` records a `keyboard_handler.simulate_key_press(c)`
call together with the state machine's symbolic state at the moment of the
press (observational instrumentation only; the orchestrator itself does not
read the state there).  `stepCall p` is one `world.step(...)` inside phase
`p`; `smUpdate p` one `state_machine.update()`; `failCall` the
`state_machine.fail_current_task()` call of line 362; `flagRead b` the
result of `get_and_clear_hard_reset_flag()` (line 365); `statusRead b` the
result of `get_last_attempt_status()` (line 372); `warn p` a timeout
warning print (line 401-402); `runStart n` the `total_runs += 1` of
line 293 with the new value; `successInc n` the `successful_grasps += 1`
of line 374 with the new value. -/
inductive Ev
  | keyPress (c : Char) (smState : String)
  | stepCall (p : Phase)
  | smUpdate (p : Phase)
  | failCall
  | flagRead (b : Bool)
  | statusRead (b : Bool)
  | warn (p : Phase)
  | runStart (n : Nat)
  | successInc (n : Nat)
deriving DecidableEq, Repr

/-- Modelled from the spec: the grasp state machine
(`src.state_machine.SimpleGraspingStateMachine`) is repository code that is
not under `src/`; per spec §6 it is an opaque collaborator exposing exactly
this contract: `update`, `is_busy`, `get_current_state` (symbolic state,
distinguishing `"IDLE"`), `get_last_attempt_status`,
`get_and_clear_hard_reset_flag` (read-and-clear), `fail_current_task`,
and reception of injected key events (via the keyboard handler's
`simulate_key_press`, spec §2 "Event Injector"). -/
structure StateMachine (σ : Type) where
  update : σ → σ
  is_busy : σ → Bool
  get_current_state : σ → String
  get_last_attempt_status : σ → Bool
  get_and_clear_hard_reset_flag : σ → Bool × σ
  fail_current_task : σ → σ
  simulate_key_press : Char → σ → σ

/-- Modelled from the spec: the stepper contract (spec §6): `step`
advances the simulation one tick, `is_playing` reports whether the
simulation is actively running (`world.is_playing()`). -/
structure WorldOps (ω : Type) where
  step : ω → ω
  is_playing : ω → Bool

/-- Orchestrator-owned loop state: the external collaborators' states plus
the two counters initialized at lines 274-275. -/
structure LoopState (σ ω : Type) where
  sm : σ
  w : ω
  successful_grasps : Nat
  total_runs : Nat

/-- Line 310: `for _ in range(10)` warmup frames. -/
def warmup_frames : Nat := 10

/-- Line 328: `step_timeout = 60 * 60`. -/
def completion_timeout : Nat := 60 * 60

/-- Line 381: `idle_wait_timeout = 60 * 5`. -/
def idle_wait_timeout : Nat := 60 * 5

/-- Line 412: `step_timeout = 60 * 5` for the reset wait. -/
def reset_wait_timeout : Nat := 60 * 5

/-- One iteration of the body of any stepping loop (e.g. lines 331-356):
`world.step(...)`, then, when the simulation is playing, the fixed per-tick
update sequence whose only effect on the orchestrator-relevant state is
`state_machine.update()` (the kinematics, visualization, control and camera
calls mutate only external collaborators). -/
def tick (W : WorldOps ω) (M : StateMachine σ) (p : Phase) (w : ω) (s : σ) :
    ω × σ × List Ev :=
  let w1 := W.step w
  if W.is_playing w1 then (w1, M.update s, [Ev.stepCall p, Ev.smUpdate p])
  else (w1, s, [Ev.stepCall p])

/-- Iterated `tick`, discarding traces: the (world, machine) pair
observed by the `k`-th top-of-loop poll of a waiting loop. -/
def tickIter (W : WorldOps ω) (M : StateMachine σ) (p : Phase) :
    Nat → ω → σ → ω × σ
  | 0, w, s => (w, s)
  | n + 1, w, s => tickIter W M p n (tick W M p w s).1 (tick W M p w s).2.1

/-- Lines 310-325: the unconditional warmup loop, `n` frames. -/
def warmupLoop (W : WorldOps ω) (M : StateMachine σ) :
    Nat → ω → σ → ω × σ × List Ev
  | 0, w, s => (w, s, [])
  | n + 1, w, s =>
    let r1 := tick W M Phase.warmup w s
    let r2 := warmupLoop W M n r1.1 r1.2.1
    (r2.1, r2.2.1, r1.2.2 ++ r2.2.2)

/-- A bounded polling loop, `while cond() and step_count < budget`
(lines 330, 383, 415), called with the budget as fuel.  Returns the final
world and machine states, the number of iterations executed (the final
value of `step_count`), and the trace.  The condition is polled before
each step; the loop exits as soon as the condition fails or the budget is
exhausted. -/
def awaitLoop (W : WorldOps ω) (M : StateMachine σ) (p : Phase)
    (cond : σ → Bool) : Nat → ω → σ → ω × σ × Nat × List Ev
  | 0, w, s => (w, s, 0, [])
  | n + 1, w, s =>
    if cond s then
      let r1 := tick W M p w s
      let r2 := awaitLoop W M p cond n r1.1 r1.2.1
      (r2.1, r2.2.1, r2.2.2.1 + 1, r1.2.2 ++ r2.2.2.2)
    else (w, s, 0, [])

/-- A `keyboard_handler.simulate_key_press(c)` call, recording the
machine's symbolic state at the moment of the press in the trace. -/
def pressKey (M : StateMachine σ) (c : Char) (s : σ) : σ × List Ev :=
  (M.simulate_key_press c s, [Ev.keyPress c (M.get_current_state s)])

/-- The condition of the waiting loops at lines 383 and 415:
`state_machine.get_current_state() != "IDLE"`. -/
def notIdle (M : StateMachine σ) (s : σ) : Bool :=
  !(M.get_current_state s == "IDLE")

/-- How one loop-iteration body ends: `stop` for `break` (lines 300, 405),
`voided` for the `continue` of line 369 after a critical failure,
`normal` for falling through to line 443. -/
inductive EpOutcome
  | stop
  | voided
  | normal
deriving DecidableEq, Repr

/-- Lines 305-362: trigger the episode (`simulate_key_press('1')`),
run the 10-frame warmup, wait for completion (budget 3600 polls of
`is_busy`), and on timeout (`step_count >= step_timeout`) call
`fail_current_task`.  Returns the world state, machine state, the number
of completion-wait iterations, and the trace. -/
def episodeLead (W : WorldOps ω) (M : StateMachine σ) (w : ω) (s : σ) :
    ω × σ × Nat × List Ev :=
  let p1 := pressKey M '1' s
  let p2 := warmupLoop W M warmup_frames w p1.1
  let p3 := awaitLoop W M Phase.awaitCompletion M.is_busy completion_timeout
    p2.1 p2.2.1
  let k := p3.2.2.1
  if completion_timeout ≤ k then
    (p3.1, M.fail_current_task p3.2.1, k,
      p1.2 ++ p2.2.2 ++ p3.2.2.2 ++ [Ev.failCall])
  else
    (p3.1, p3.2.1, k, p1.2 ++ p2.2.2 ++ p3.2.2.2)

/-- The machine state observed by the `k`-th top-of-loop poll of the
completion wait (line 330) in an episode started from world `w` and
machine state `s`: the state after the trigger press, the 10 warmup
frames, and `k` completion-wait ticks. -/
def completionPollState (W : WorldOps ω) (M : StateMachine σ) (w : ω)
    (s : σ) (k : Nat) : σ :=
  (tickIter W M Phase.awaitCompletion k
    (warmupLoop W M warmup_frames w (pressKey M '1' s).1).1
    (warmupLoop W M warmup_frames w (pressKey M '1' s).1).2.1).2

/-- Lines 293-443: the body of one iteration of the outer loop.
`Q` is `total_success_episodes`.  In order: `total_runs += 1` (line 293);
the (dead in practice) quota re-check of line 299 (`break`); the episode
prefix (trigger, warmup, completion wait, timeout fail); the
critical-failure check (lines 365-369: on a set flag press `'r'` and
`continue`); outcome evaluation (lines 372-377); the return-to-IDLE wait
with its timeout warning (lines 380-402); the quota check of line 404
(`break`); the scene-reset key press (line 409) and the reset wait
(lines 412-443). -/
def runEpisode (W : WorldOps ω) (M : StateMachine σ) (Q : Nat)
    (st : LoopState σ ω) : LoopState σ ω × List Ev × EpOutcome :=
  let tr := st.total_runs + 1
  let t0 := [Ev.runStart tr]
  if Q ≤ st.successful_grasps then
    (⟨st.sm, st.w, st.successful_grasps, tr⟩, t0, EpOutcome.stop)
  else
    let pre := episodeLead W M st.w st.sm
    let fr := M.get_and_clear_hard_reset_flag pre.2.1
    let t5 := [Ev.flagRead fr.1]
    if fr.1 then
      let p6 := pressKey M 'r' fr.2
      (⟨p6.1, pre.1, st.successful_grasps, tr⟩,
        t0 ++ pre.2.2.2 ++ t5 ++ p6.2, EpOutcome.voided)
    else
      let was := M.get_last_attempt_status fr.2
      let t7 := [Ev.statusRead was]
      let sg := if was then st.successful_grasps + 1 else st.successful_grasps
      let t8 := if was then [Ev.successInc sg] else ([] : List Ev)
      let p9 := awaitLoop W M Phase.awaitIdle (notIdle M) idle_wait_timeout
        pre.1 fr.2
      let tA := if idle_wait_timeout ≤ p9.2.2.1 then [Ev.warn Phase.awaitIdle]
        else ([] : List Ev)
      if Q ≤ sg then
        (⟨p9.2.1, p9.1, sg, tr⟩,
          t0 ++ pre.2.2.2 ++ t5 ++ t7 ++ t8 ++ p9.2.2.2 ++ tA, EpOutcome.stop)
      else
        let pB := pressKey M 'r' p9.2.1
        let pC := awaitLoop W M Phase.resetWait (notIdle M) reset_wait_timeout
          p9.1 pB.1
        (⟨pC.2.1, pC.1, sg, tr⟩,
          t0 ++ pre.2.2.2 ++ t5 ++ t7 ++ t8 ++ p9.2.2.2 ++ tA ++ pB.2
            ++ pC.2.2.2, EpOutcome.normal)

/-- Lines 274-275 and 292-443: the outer loop
`while successful_grasps < total_success_episodes`, run with explicit fuel
(number of iterations allowed).  The returned Bool is true when the loop
reached its exit (condition false or `break`) and false when the fuel ran
out with the loop still going. -/
def runLoop (W : WorldOps ω) (M : StateMachine σ) (Q : Nat) :
    Nat → LoopState σ ω → LoopState σ ω × List Ev × Bool
  | 0, st => (st, [], false)
  | n + 1, st =>
    if st.successful_grasps < Q then
      let e := runEpisode W M Q st
      match e.2.2 with
      | EpOutcome.stop => (e.1, e.2.1, true)
      | _ =>
        let r := runLoop W M Q n e.1
        (r.1, e.2.1 ++ r.2.1, r.2.2)
    else (st, [], true)

/-- The counters at lines 274-275 with the collaborators' start states. -/
def initState (s0 : σ) (w0 : ω) : LoopState σ ω := ⟨s0, w0, 0, 0⟩

/-! ### The per-tick update sequence of the four waiting phases (claim C6)

Each of the four stepping loops guards its body with `world.is_playing()`
and then performs a fixed sequence of collaborator calls.  Each definition
below transcribes one source block literally; the claim is that the four
sequences coincide. -/

/-- One collaborator call inside the `if world.is_playing():` block of a
stepping loop. -/
inductive TickAction
  | getJointPositions
  | fkWristLink
  | fkGripperFrameLink
  | updateCalculations
  | smUpdate
  | executeControl
  | drawVisualizations
  | updateFrameCount
deriving DecidableEq, Repr

/-- Lines 313-325: the per-tick body of the warmup loop, as a function of
`world.is_playing()`, `headless` and the presence of a camera
controller. -/
def warmupTickSeq (playing headless hasCamera : Bool) : List TickAction :=
  if playing then
    [TickAction.getJointPositions, TickAction.fkWristLink,
     TickAction.fkGripperFrameLink, TickAction.updateCalculations,
     TickAction.smUpdate, TickAction.executeControl]
    ++ (if headless then [] else [TickAction.drawVisualizations])
    ++ (if hasCamera then [TickAction.updateFrameCount] else [])
  else []

/-- Lines 334-356: the per-tick body of the completion-wait loop. -/
def awaitCompletionTickSeq (playing headless hasCamera : Bool) :
    List TickAction :=
  if playing then
    [TickAction.getJointPositions, TickAction.fkWristLink,
     TickAction.fkGripperFrameLink, TickAction.updateCalculations,
     TickAction.smUpdate, TickAction.executeControl]
    ++ (if headless then [] else [TickAction.drawVisualizations])
    ++ (if hasCamera then [TickAction.updateFrameCount] else [])
  else []

/-- Lines 386-398: the per-tick body of the return-to-IDLE wait loop. -/
def awaitIdleTickSeq (playing headless hasCamera : Bool) : List TickAction :=
  if playing then
    [TickAction.getJointPositions, TickAction.fkWristLink,
     TickAction.fkGripperFrameLink, TickAction.updateCalculations,
     TickAction.smUpdate, TickAction.executeControl]
    ++ (if headless then [] else [TickAction.drawVisualizations])
    ++ (if hasCamera then [TickAction.updateFrameCount] else [])
  else []

/-- Lines 419-441: the per-tick body of the reset-completion wait loop. -/
def resetWaitTickSeq (playing headless hasCamera : Bool) : List TickAction :=
  if playing then
    [TickAction.getJointPositions, TickAction.fkWristLink,
     TickAction.fkGripperFrameLink, TickAction.updateCalculations,
     TickAction.smUpdate, TickAction.executeControl]
    ++ (if headless then [] else [TickAction.drawVisualizations])
    ++ (if hasCamera then [TickAction.updateFrameCount] else [])
  else []

/-! ### Process exit and cleanup (claim C9), lines 449-469 -/

/-- How the guarded run body (lines 55-447) terminates. -/
inductive RunOutcome
  | normal
  | keyboardInterrupt
  | raisedError
deriving DecidableEq, Repr

/-- A resource-release call of the cleanup block (lines 460-464). -/
inductive CleanupEv
  | closeDataCollectionManager
  | closeSimulationApp
deriving DecidableEq, Repr

/-- Lines 449-469: the exception handlers, the `finally` cleanup block and
the final return of `main`.  `except KeyboardInterrupt` (line 449) prints
and falls through; `except Exception` (line 451) returns 1; the `finally`
block (lines 457-466) closes the data collection manager and the
simulation app when they exist, and runs before any return; the fall
through path returns 0 (line 469).  Returns the exit code and the list of
cleanup calls executed. -/
def mainExit (o : RunOutcome) (dcmPresent simAppPresent : Bool) :
    Nat × List CleanupEv :=
  let earlyReturn : Option Nat :=
    match o with
    | RunOutcome.raisedError => some 1
    | _ => none
  let cleanup :=
    (if dcmPresent then [CleanupEv.closeDataCollectionManager] else [])
      ++ (if simAppPresent then [CleanupEv.closeSimulationApp] else [])
  (earlyReturn.getD 0, cleanup)

/-! ### Deterministic mock state machines

Modelled from the spec: spec §8 settles the quantified loop properties
against "a deterministic or mocked state machine"; §9 prescribes mocks
implementing the §6 contract.  `MockConfig` scripts, per episode, how many
update ticks the machine stays busy after a trigger, the reported outcome,
and whether the critical-failure flag is raised when the episode ends;
`reset_ticks` is how many update ticks a scene reset takes. -/

/-- Script for one mocked episode. -/
structure EpisodeScript where
  busy_ticks : Nat
  outcome : Bool
  hard_reset : Bool
deriving DecidableEq, Repr

/-- The mock machine's activity mode: idle, grasping for episode `i` with
`left` more update ticks to go, or resetting the scene. -/
inductive MockMode
  | idle
  | grasp (i : Nat) (left : Nat)
  | resetting (left : Nat)
deriving DecidableEq, Repr

/-- Mock machine state: mode, number of triggers consumed so far, last
reported outcome, and the critical-failure flag. -/
structure MockState where
  mode : MockMode
  ep : Nat
  lastStatus : Bool
  flag : Bool
deriving DecidableEq, Repr

/-- Behaviour script of a mock machine. -/
structure MockConfig where
  script : Nat → EpisodeScript
  reset_ticks : Nat

/-- One update tick of the mock: a grasp with no ticks left completes
(recording its scripted outcome and raising the scripted flag), a reset
with no ticks left completes silently, otherwise the countdown
decrements. -/
def mockUpdate (c : MockConfig) (s : MockState) : MockState :=
  match s.mode with
  | MockMode.idle => s
  | MockMode.grasp i l =>
    match l with
    | 0 => ⟨MockMode.idle, s.ep, (c.script i).outcome,
        s.flag || (c.script i).hard_reset⟩
    | l + 1 => ⟨MockMode.grasp i l, s.ep, s.lastStatus, s.flag⟩
  | MockMode.resetting l =>
    match l with
    | 0 => ⟨MockMode.idle, s.ep, s.lastStatus, s.flag⟩
    | l + 1 => ⟨MockMode.resetting l, s.ep, s.lastStatus, s.flag⟩

/-- The mock is busy whenever not idle. -/
def mockIsBusy (s : MockState) : Bool :=
  match s.mode with
  | MockMode.idle => false
  | _ => true

/-- Symbolic state string of the mock. -/
def mockCurrentState (s : MockState) : String :=
  match s.mode with
  | MockMode.idle => "IDLE"
  | MockMode.grasp _ _ => "GRASPING"
  | MockMode.resetting _ => "RESETTING"

/-- Forced failure: the mock converges to idle with a failure outcome. -/
def mockFail (s : MockState) : MockState :=
  ⟨MockMode.idle, s.ep, false, s.flag⟩

/-- Key reception: `'1'` starts the next scripted episode, `'r'` starts a
scene reset; other keys are ignored. -/
def mockKeyPress (c : MockConfig) (ch : Char) (s : MockState) : MockState :=
  if ch = '1' then
    ⟨MockMode.grasp s.ep (c.script s.ep).busy_ticks, s.ep + 1,
      s.lastStatus, s.flag⟩
  else if ch = 'r' then
    ⟨MockMode.resetting c.reset_ticks, s.ep, s.lastStatus, s.flag⟩
  else s

/-- The mock machine packaged as a `StateMachine`. -/
def mockSM (c : MockConfig) : StateMachine MockState where
  update := mockUpdate c
  is_busy := mockIsBusy
  get_current_state := mockCurrentState
  get_last_attempt_status := fun s => s.lastStatus
  get_and_clear_hard_reset_flag := fun s =>
    (s.flag, ⟨s.mode, s.ep, s.lastStatus, false⟩)
  fail_current_task := mockFail
  simulate_key_press := mockKeyPress c

/-- Mock start state: idle, no episodes consumed, no flag. -/
def mockInit : MockState := ⟨MockMode.idle, 0, false, false⟩

/-- A trivial world that is always playing; simulated time carries no
information the orchestrator reads beyond `is_playing`. -/
def unitWorld : WorldOps Unit where
  step := fun _ => ()
  is_playing := fun _ => true

/-- A degenerate machine that never reports idle (for the timeout
claims): every query says busy. -/
def busySM : StateMachine Unit where
  update := fun s => s
  is_busy := fun _ => true
  get_current_state := fun _ => "GRASPING"
  get_last_attempt_status := fun _ => false
  get_and_clear_hard_reset_flag := fun s => (false, s)
  fail_current_task := fun s => s
  simulate_key_press := fun _ s => s

/-- A mock script whose first episode raises the critical-failure flag
(it then voids), with a 50-tick scene reset; later episodes succeed
instantly. -/
def mockCfgVoidFirst : MockConfig where
  script := fun j =>
    if j = 0 then ⟨0, true, true⟩ else ⟨0, true, false⟩
  reset_ticks := 50

/-- A mock script where every episode succeeds instantly and resets are
instantaneous. -/
def mockCfgAllGood : MockConfig where
  script := fun _ => ⟨0, true, false⟩
  reset_ticks := 0

/-- A mock script where every episode fails instantly and a scene reset
takes 400 ticks - longer than the 300-tick reset-wait budget. -/
def mockCfgSlowReset : MockConfig where
  script := fun _ => ⟨0, false, false⟩
  reset_ticks := 400

/-! ### Event matchers -/

/-- Matches `stepCall p` for a given phase `p`: one `world.step(...)` call
performed inside that waiting phase. -/
def isStepOf (p : Phase) : Ev → Bool
  | Ev.stepCall q => decide (q = p)
  | _ => false

/-- Matches `failCall`. -/
def isFailEv : Ev → Bool
  | Ev.failCall => true
  | _ => false

/-- Matches `statusRead _`. -/
def isStatusReadEv : Ev → Bool
  | Ev.statusRead _ => true
  | _ => false

/-- Matches `runStart _`. -/
def isRunStartEv : Ev → Bool
  | Ev.runStart _ => true
  | _ => false

/-- Matches `keyPress c _` for a given `c`. -/
def isKeyPressOf (c : Char) : Ev → Bool
  | Ev.keyPress d _ => decide (d = c)
  | _ => false

/-- Matches `warn p` for a given `p`: a wait-timeout warning print in
phase `p`. -/
def isWarnOf (p : Phase) : Ev → Bool
  | Ev.warn q => decide (q = p)
  | _ => false

/-- Matches `stepCall p` or `smUpdate p` for a given `p` (the only events a
stepping loop emits). -/
def isTickOf (p : Phase) : Ev → Bool
  | Ev.stepCall q => decide (q = p)
  | Ev.smUpdate q => decide (q = p)
  | _ => false

/-- A trigger key press recorded while the machine's symbolic state was
anything but `"IDLE"` falsifies this check; all other events pass it. -/
def trigAtIdle : Ev → Bool
  | Ev.keyPress c st => if c = '1' then st == "IDLE" else true
  | _ => true

/-- Every episode trigger in the trace was emitted while the state machine
reported `"IDLE"`. -/
def triggersOnlyWhenIdle (tr : List Ev) : Bool :=
  tr.all trigAtIdle

/-! ## Helper lemmas -/

lemma countP_zero_of_all {l : List Ev} {g f : Ev → Bool}
    (h : l.all g = true) (hgf : ∀ e, g e = true → f e = false) :
    l.countP f = 0 := by
  rw [List.countP_eq_zero]
  intro a ha
  have hg := List.all_eq_true.mp h a ha
  simp [hgf a hg]

lemma all_of_all {l : List Ev} {g f : Ev → Bool}
    (h : l.all g = true) (hgf : ∀ e, g e = true → f e = true) :
    l.all f = true := by
  rw [List.all_eq_true] at h ⊢
  exact fun a ha => hgf a (h a ha)

lemma tick_trace_all (W : WorldOps ω) (M : StateMachine σ) (p : Phase)
    (w : ω) (s : σ) : (tick W M p w s).2.2.all (isTickOf p) = true := by
  simp only [tick]
  split <;> simp [isTickOf]

lemma tick_countP_step (W : WorldOps ω) (M : StateMachine σ) (p : Phase)
    (w : ω) (s : σ) : (tick W M p w s).2.2.countP (isStepOf p) = 1 := by
  simp only [tick]
  split <;> simp [isStepOf, List.countP_cons, List.countP_nil]

lemma tickIter_succ (W : WorldOps ω) (M : StateMachine σ) (p : Phase)
    (k : Nat) (w : ω) (s : σ) :
    tickIter W M p (k + 1) w s
      = tickIter W M p k (tick W M p w s).1 (tick W M p w s).2.1 := rfl

lemma warmupLoop_all_tick (W : WorldOps ω) (M : StateMachine σ) :
    ∀ (n : Nat) (w : ω) (s : σ),
      ((warmupLoop W M n w s).2.2).all (isTickOf Phase.warmup) = true := by
  intro n
  induction n with
  | zero => intro w s; simp [warmupLoop]
  | succ m ih =>
    intro w s
    simp only [warmupLoop, List.all_append]
    rw [tick_trace_all, ih]
    rfl

lemma warmupLoop_state (W : WorldOps ω) (M : StateMachine σ) :
    ∀ (n : Nat) (w : ω) (s : σ),
      (warmupLoop W M n w s).2.1
        = (tickIter W M Phase.warmup n w s).2 := by
  intro n
  induction n with
  | zero => intro w s; rfl
  | succ m ih => intro w s; exact ih _ _

lemma awaitLoop_all_tick (W : WorldOps ω) (M : StateMachine σ) (p : Phase)
    (cond : σ → Bool) :
    ∀ (fuel : Nat) (w : ω) (s : σ),
      ((awaitLoop W M p cond fuel w s).2.2.2).all (isTickOf p) = true := by
  intro fuel
  induction fuel with
  | zero => intro w s; simp [awaitLoop]
  | succ n ih =>
    intro w s
    simp only [awaitLoop]
    split
    · simp only [List.all_append]
      rw [tick_trace_all, ih]
      rfl
    · simp

lemma awaitLoop_countP_step (W : WorldOps ω) (M : StateMachine σ) (p : Phase)
    (cond : σ → Bool) :
    ∀ (fuel : Nat) (w : ω) (s : σ),
      ((awaitLoop W M p cond fuel w s).2.2.2).countP (isStepOf p)
        = (awaitLoop W M p cond fuel w s).2.2.1 := by
  intro fuel
  induction fuel with
  | zero => intro w s; simp [awaitLoop]
  | succ n ih =>
    intro w s
    simp only [awaitLoop]
    split
    · simp only [List.countP_append]
      rw [tick_countP_step, ih]
      omega
    · simp

lemma awaitLoop_steps_le (W : WorldOps ω) (M : StateMachine σ) (p : Phase)
    (cond : σ → Bool) :
    ∀ (fuel : Nat) (w : ω) (s : σ),
      (awaitLoop W M p cond fuel w s).2.2.1 ≤ fuel := by
  intro fuel
  induction fuel with
  | zero => intro w s; simp [awaitLoop]
  | succ n ih =>
    intro w s
    simp only [awaitLoop]
    split
    · dsimp only
      have := ih (tick W M p w s).1 (tick W M p w s).2.1
      omega
    · dsimp only
      omega

lemma awaitLoop_full_iff (W : WorldOps ω) (M : StateMachine σ) (p : Phase)
    (cond : σ → Bool) :
    ∀ (fuel : Nat) (w : ω) (s : σ),
      (awaitLoop W M p cond fuel w s).2.2.1 = fuel ↔
        ∀ k, k < fuel → cond ((tickIter W M p k w s).2) = true := by
  intro fuel
  induction fuel with
  | zero => intro w s; simp [awaitLoop]
  | succ n ih =>
    intro w s
    simp only [awaitLoop]
    by_cases hc : cond s
    · rw [if_pos hc]
      dsimp only
      constructor
      · intro h k hk
        have hrec : (awaitLoop W M p cond n (tick W M p w s).1
            (tick W M p w s).2.1).2.2.1 = n := by omega
        have hall := (ih _ _).mp hrec
        match k with
        | 0 => simpa [tickIter] using hc
        | k + 1 =>
          rw [tickIter_succ]
          exact hall k (by omega)
      · intro h
        have hall : ∀ k, k < n →
            cond ((tickIter W M p k (tick W M p w s).1
              (tick W M p w s).2.1).2) = true := by
          intro k hk
          have hk1 := h (k + 1) (by omega)
          rwa [tickIter_succ] at hk1
        have := (ih _ _).mpr hall
        omega
    · rw [if_neg hc]
      dsimp only
      constructor
      · intro h
        exact absurd h (by omega)
      · intro h
        have h0 := h 0 (by omega)
        simp only [tickIter] at h0
        exact absurd h0 (by simp [hc])

lemma awaitLoop_exits (W : WorldOps ω) (M : StateMachine σ) (p : Phase)
    (cond : σ → Bool) :
    ∀ (k0 : Nat) (fuel : Nat) (w : ω) (s : σ), k0 ≤ fuel →
      (∀ k, k < k0 → cond ((tickIter W M p k w s).2) = true) →
      cond ((tickIter W M p k0 w s).2) = false →
      (awaitLoop W M p cond fuel w s).1 = (tickIter W M p k0 w s).1
        ∧ (awaitLoop W M p cond fuel w s).2.1 = (tickIter W M p k0 w s).2
        ∧ (awaitLoop W M p cond fuel w s).2.2.1 = k0 := by
  intro k0
  induction k0 with
  | zero =>
    intro fuel w s _ _ hidle
    simp only [tickIter] at hidle ⊢
    match fuel with
    | 0 => exact ⟨rfl, rfl, rfl⟩
    | n + 1 =>
      simp only [awaitLoop]
      rw [if_neg (by simp [hidle])]
      exact ⟨rfl, rfl, rfl⟩
  | succ m ih =>
    intro fuel w s hle hbusy hidle
    match fuel with
    | 0 => omega
    | n + 1 =>
      have hc : cond s = true := by
        have := hbusy 0 (by omega)
        simpa [tickIter] using this
      simp only [awaitLoop]
      rw [if_pos hc]
      have hrec := ih n (tick W M p w s).1 (tick W M p w s).2.1 (by omega)
        (by
          intro k hk
          have := hbusy (k + 1) (by omega)
          rwa [tickIter_succ] at this)
        (by
          have := hidle
          rwa [tickIter_succ] at this)
      refine ⟨hrec.1, hrec.2.1, ?_⟩
      dsimp only
      have h3 := hrec.2.2
      omega

lemma tickOf_not_fail (p : Phase) :
    ∀ e, isTickOf p e = true → isFailEv e = false := by
  intro e
  cases e <;> simp [isTickOf, isFailEv]

lemma tickOf_not_statusRead (p : Phase) :
    ∀ e, isTickOf p e = true → isStatusReadEv e = false := by
  intro e
  cases e <;> simp [isTickOf, isStatusReadEv]

lemma tickOf_not_runStart (p : Phase) :
    ∀ e, isTickOf p e = true → isRunStartEv e = false := by
  intro e
  cases e <;> simp [isTickOf, isRunStartEv]

lemma tickOf_not_keyPress (p : Phase) (c : Char) :
    ∀ e, isTickOf p e = true → isKeyPressOf c e = false := by
  intro e
  cases e <;> simp [isTickOf, isKeyPressOf]

lemma tickOf_trigAtIdle (p : Phase) :
    ∀ e, isTickOf p e = true → trigAtIdle e = true := by
  intro e
  cases e <;> simp [isTickOf, trigAtIdle]

lemma tickOf_not_stepOf {p q : Phase} (hqp : q ≠ p) :
    ∀ e, isTickOf p e = true → isStepOf q e = false := by
  intro e
  cases e with
  | stepCall r =>
    simp only [isTickOf, isStepOf, decide_eq_true_eq, decide_eq_false_iff_not]
    intro hr
    subst hr
    exact fun h => hqp h.symm
  | _ => simp [isTickOf, isStepOf]

/-- Generic vanishing-count lemma for the trigger-to-fail part of an
episode: an event class that matches neither the trigger press, nor a
warmup or completion-wait tick, nor the fail call, never occurs there. -/
lemma episodeLead_countP (W : WorldOps ω) (M : StateMachine σ) (w : ω)
    (s : σ) {f : Ev → Bool}
    (h1 : f (Ev.keyPress '1' (M.get_current_state s)) = false)
    (hw : ∀ e, isTickOf Phase.warmup e = true → f e = false)
    (hc : ∀ e, isTickOf Phase.awaitCompletion e = true → f e = false)
    (hfail : f Ev.failCall = false) :
    (episodeLead W M w s).2.2.2.countP f = 0 := by
  have hwc : ((warmupLoop W M warmup_frames w
      (M.simulate_key_press '1' s)).2.2).countP f = 0 :=
    countP_zero_of_all (warmupLoop_all_tick W M _ _ _) hw
  have hcc : ∀ w2 s2, ((awaitLoop W M Phase.awaitCompletion M.is_busy
      completion_timeout w2 s2).2.2.2).countP f = 0 := fun w2 s2 =>
    countP_zero_of_all (awaitLoop_all_tick W M _ _ _ _ _) hc
  simp only [episodeLead, pressKey]
  split <;> dsimp only <;>
    (simp only [List.countP_append, hwc, hcc] ;
      simp [List.countP_cons, List.countP_nil, h1, hfail])

/-- Same as `episodeLead_countP` for an all-quantified check. -/
lemma episodeLead_all (W : WorldOps ω) (M : StateMachine σ) (w : ω)
    (s : σ) {f : Ev → Bool}
    (h1 : f (Ev.keyPress '1' (M.get_current_state s)) = true)
    (hw : ∀ e, isTickOf Phase.warmup e = true → f e = true)
    (hc : ∀ e, isTickOf Phase.awaitCompletion e = true → f e = true)
    (hfail : f Ev.failCall = true) :
    (episodeLead W M w s).2.2.2.all f = true := by
  have hwc : ((warmupLoop W M warmup_frames w
      (M.simulate_key_press '1' s)).2.2).all f = true :=
    all_of_all (warmupLoop_all_tick W M _ _ _) hw
  have hcc : ∀ w2 s2, ((awaitLoop W M Phase.awaitCompletion M.is_busy
      completion_timeout w2 s2).2.2.2).all f = true := fun w2 s2 =>
    all_of_all (awaitLoop_all_tick W M _ _ _ _ _) hc
  simp only [episodeLead, pressKey]
  split <;> dsimp only <;>
    (simp only [List.all_append, hwc, hcc] ;
      simp [h1, hfail])

/-- The fail call appears in the trigger-to-fail trace exactly when the
completion wait consumed its full budget. -/
lemma episodeLead_countP_fail (W : WorldOps ω) (M : StateMachine σ)
    (w : ω) (s : σ) :
    (episodeLead W M w s).2.2.2.countP isFailEv
      = (if completion_timeout ≤ (episodeLead W M w s).2.2.1 then 1
          else 0) := by
  have hwc : ((warmupLoop W M warmup_frames w
      (M.simulate_key_press '1' s)).2.2).countP isFailEv = 0 :=
    countP_zero_of_all (warmupLoop_all_tick W M _ _ _)
      (tickOf_not_fail Phase.warmup)
  have hcc : ∀ w2 s2, ((awaitLoop W M Phase.awaitCompletion M.is_busy
      completion_timeout w2 s2).2.2.2).countP isFailEv = 0 := fun w2 s2 =>
    countP_zero_of_all (awaitLoop_all_tick W M _ _ _ _ _)
      (tickOf_not_fail Phase.awaitCompletion)
  simp only [episodeLead, pressKey]
  split <;> rename_i hk <;> dsimp only <;>
    (simp only [List.countP_append, hwc, hcc] ;
      simp [List.countP_cons, List.countP_nil, isFailEv, hk])

/-- The completion-wait stepper calls in the trigger-to-fail trace number
exactly the completion-wait iteration count. -/
lemma episodeLead_countP_stepC (W : WorldOps ω) (M : StateMachine σ)
    (w : ω) (s : σ) :
    (episodeLead W M w s).2.2.2.countP (isStepOf Phase.awaitCompletion)
      = (episodeLead W M w s).2.2.1 := by
  have hwc : ((warmupLoop W M warmup_frames w
      (M.simulate_key_press '1' s)).2.2).countP
        (isStepOf Phase.awaitCompletion) = 0 :=
    countP_zero_of_all (warmupLoop_all_tick W M _ _ _)
      (tickOf_not_stepOf (by decide))
  have hcc := awaitLoop_countP_step W M Phase.awaitCompletion M.is_busy
    completion_timeout (warmupLoop W M warmup_frames w
      (M.simulate_key_press '1' s)).1 (warmupLoop W M warmup_frames w
      (M.simulate_key_press '1' s)).2.1
  simp only [episodeLead, pressKey]
  split <;> dsimp only <;>
    (simp only [List.countP_append, hwc, hcc] ;
      simp [List.countP_cons, List.countP_nil, isStepOf])

/-- The steps component of `episodeLead` is the completion-wait loop's
iteration count. -/
lemma episodeLead_steps (W : WorldOps ω) (M : StateMachine σ)
    (w : ω) (s : σ) :
    (episodeLead W M w s).2.2.1
      = (awaitLoop W M Phase.awaitCompletion M.is_busy completion_timeout
          (warmupLoop W M warmup_frames w (pressKey M '1' s).1).1
          (warmupLoop W M warmup_frames w (pressKey M '1' s).1).2.1).2.2.1
    := by
  simp only [episodeLead]
  split <;> rfl

/-! ## Claim theorems -/

/-- C6: the per-tick update sequence performed on every tick where the
simulation is running (forward kinematics for the wrist and gripper
frames, visualization-calculation update, state-machine update, IK control
dispatch, optional debug drawing when not headless, optional camera
bookkeeping, in that order) is identical across the four waiting phases
WARMUP, AWAIT_COMPLETION, AWAIT_IDLE and the RESET-completion wait. -/
theorem per_tick_sequence_uniform :
    ∀ (playing headless hasCamera : Bool),
      warmupTickSeq playing headless hasCamera
          = awaitCompletionTickSeq playing headless hasCamera
        ∧ awaitCompletionTickSeq playing headless hasCamera
          = awaitIdleTickSeq playing headless hasCamera
        ∧ awaitIdleTickSeq playing headless hasCamera
          = resetWaitTickSeq playing headless hasCamera := by
  intro playing headless hasCamera
  exact ⟨rfl, rfl, rfl⟩

/-- C9: the process returns exit code 0 on normal completion and on a
keyboard interrupt, 1 on any other unhandled exception, and in all three
cases the cleanup block closes exactly the resources that exist before the
function returns. -/
theorem exit_code_and_cleanup :
    ∀ (dcm sa : Bool),
      (mainExit RunOutcome.normal dcm sa).1 = 0
      ∧ (mainExit RunOutcome.keyboardInterrupt dcm sa).1 = 0
      ∧ (mainExit RunOutcome.raisedError dcm sa).1 = 1
      ∧ ∀ o : RunOutcome,
          ((CleanupEv.closeDataCollectionManager ∈ (mainExit o dcm sa).2)
              ↔ dcm = true)
          ∧ ((CleanupEv.closeSimulationApp ∈ (mainExit o dcm sa).2)
              ↔ sa = true) := by
  intro dcm sa
  refine ⟨rfl, rfl, rfl, ?_⟩
  intro o
  cases dcm <;> cases sa <;> cases o <;> simp [mainExit]

/-- C5: the total-attempt counter is incremented exactly once at the entry
of every loop iteration, before any warmup, waiting or evaluation (the
`runStart` event heads the episode trace and occurs exactly once), in
every branch of the iteration - including an episode voided by a critical
failure. -/
theorem total_attempts_incremented_at_entry :
    ∀ (σ ω : Type) (W : WorldOps ω) (M : StateMachine σ) (Q : Nat)
      (st : LoopState σ ω),
      (runEpisode W M Q st).1.total_runs = st.total_runs + 1
      ∧ (runEpisode W M Q st).2.1.head?
          = some (Ev.runStart (st.total_runs + 1))
      ∧ (runEpisode W M Q st).2.1.countP isRunStartEv = 1 := by
  intro σ ω W M Q st
  have hpre : (episodeLead W M st.w st.sm).2.2.2.countP isRunStartEv = 0 :=
    episodeLead_countP W M _ _ (by simp [isRunStartEv])
      (tickOf_not_runStart _) (tickOf_not_runStart _) (by simp [isRunStartEv])
  have hidle : ∀ w2 s2, ((awaitLoop W M Phase.awaitIdle (notIdle M)
      idle_wait_timeout w2 s2).2.2.2).countP isRunStartEv = 0 := fun w2 s2 =>
    countP_zero_of_all (awaitLoop_all_tick W M _ _ _ _ _)
      (tickOf_not_runStart _)
  have hreset : ∀ w2 s2, ((awaitLoop W M Phase.resetWait (notIdle M)
      reset_wait_timeout w2 s2).2.2.2).countP isRunStartEv = 0 :=
    fun w2 s2 =>
    countP_zero_of_all (awaitLoop_all_tick W M _ _ _ _ _)
      (tickOf_not_runStart _)
  simp only [runEpisode, pressKey]
  split_ifs <;>
    (refine ⟨rfl, by simp, ?_⟩ ;
      simp [List.countP_append, hpre, hidle, hreset, isRunStartEv,
        List.countP_cons, List.countP_nil])

lemma runEpisode_counters (W : WorldOps ω) (M : StateMachine σ) (Q : Nat)
    (st : LoopState σ ω) :
    (runEpisode W M Q st).1.total_runs = st.total_runs + 1
    ∧ ((runEpisode W M Q st).1.successful_grasps = st.successful_grasps
        ∨ (runEpisode W M Q st).1.successful_grasps
            = st.successful_grasps + 1) := by
  simp only [runEpisode, pressKey]
  split_ifs <;>
    refine ⟨rfl, ?_⟩ <;>
    first
      | exact Or.inr rfl
      | exact Or.inl rfl

lemma runLoop_counters (W : WorldOps ω) (M : StateMachine σ) (Q : Nat) :
    ∀ (fuel : Nat) (st : LoopState σ ω),
      st.successful_grasps ≤ st.total_runs →
      (runLoop W M Q fuel st).1.successful_grasps
          ≤ (runLoop W M Q fuel st).1.total_runs
        ∧ st.successful_grasps ≤ (runLoop W M Q fuel st).1.successful_grasps
        ∧ st.total_runs ≤ (runLoop W M Q fuel st).1.total_runs := by
  intro fuel
  induction fuel with
  | zero => intro st h; exact ⟨h, Nat.le_refl _, Nat.le_refl _⟩
  | succ n ih =>
    intro st h
    simp only [runLoop]
    split
    · have he := runEpisode_counters W M Q st
      split
      · dsimp only
        rcases he.2 with h2 | h2 <;> rw [he.1] at * <;> omega
      · dsimp only
        have hnext : (runEpisode W M Q st).1.successful_grasps
            ≤ (runEpisode W M Q st).1.total_runs := by
          rcases he.2 with h2 | h2 <;> omega
        have hrec := ih (runEpisode W M Q st).1 hnext
        rcases he.2 with h2 | h2 <;>
          exact ⟨hrec.1, by omega, by omega⟩
    · exact ⟨h, Nat.le_refl _, Nat.le_refl _⟩

/-- C10: at every point during the run the counters satisfy
`0 ≤ successful_grasps ≤ total_runs`; each iteration increments
`total_runs` by exactly 1 and `successful_grasps` by at most 1, both are
monotonically non-decreasing across the loop, and neither is reset
mid-run. -/
theorem counter_invariants :
    (∀ (σ ω : Type) (W : WorldOps ω) (M : StateMachine σ) (Q : Nat)
        (st : LoopState σ ω),
        (runEpisode W M Q st).1.total_runs = st.total_runs + 1
        ∧ ((runEpisode W M Q st).1.successful_grasps = st.successful_grasps
            ∨ (runEpisode W M Q st).1.successful_grasps
                = st.successful_grasps + 1))
    ∧ (∀ (σ ω : Type) (W : WorldOps ω) (M : StateMachine σ) (Q fuel : Nat)
        (st : LoopState σ ω),
        st.successful_grasps ≤ st.total_runs →
        (runLoop W M Q fuel st).1.successful_grasps
            ≤ (runLoop W M Q fuel st).1.total_runs
          ∧ st.successful_grasps
              ≤ (runLoop W M Q fuel st).1.successful_grasps
          ∧ st.total_runs ≤ (runLoop W M Q fuel st).1.total_runs) :=
  ⟨fun _ _ W M Q st => runEpisode_counters W M Q st,
   fun _ _ W M Q fuel st h => runLoop_counters W M Q fuel st h⟩

lemma filter_nil_of_all {l : List Ev} {g f : Ev → Bool}
    (h : l.all g = true) (hgf : ∀ e, g e = true → f e = false) :
    l.filter f = [] := by
  rw [List.filter_eq_nil_iff]
  intro a ha
  have hg := List.all_eq_true.mp h a ha
  simp [hgf a hg]

lemma awaitLoop_filter_step (W : WorldOps ω) (M : StateMachine σ)
    (p : Phase) (cond : σ → Bool) {f : Ev → Bool}
    (hstep : f (Ev.stepCall p) = true) (hupd : f (Ev.smUpdate p) = false) :
    ∀ (fuel : Nat) (w : ω) (s : σ),
      ((awaitLoop W M p cond fuel w s).2.2.2).filter f
        = List.replicate (awaitLoop W M p cond fuel w s).2.2.1
            (Ev.stepCall p) := by
  intro fuel
  induction fuel with
  | zero => intro w s; simp [awaitLoop]
  | succ n ih =>
    intro w s
    simp only [awaitLoop]
    split
    · dsimp only
      rw [List.filter_append, ih]
      have htick : ((tick W M p w s).2.2).filter f = [Ev.stepCall p] := by
        simp only [tick]
        split <;> simp [hstep, hupd]
      rw [htick, List.replicate_succ]
      rfl
    · simp

/-- Under a full-budget completion wait, the trigger-to-fail trace
restricted to an event class that keeps exactly the completion-wait
stepper calls and the fail call is the full budget of stepper calls
followed by the single fail call. -/
lemma episodeLead_filter_timeout (W : WorldOps ω) (M : StateMachine σ)
    (w : ω) (s : σ) {f : Ev → Bool}
    (hsteps : (episodeLead W M w s).2.2.1 = completion_timeout)
    (hstep : f (Ev.stepCall Phase.awaitCompletion) = true)
    (hupd : f (Ev.smUpdate Phase.awaitCompletion) = false)
    (hkey : f (Ev.keyPress '1' (M.get_current_state s)) = false)
    (hwarm : ∀ e, isTickOf Phase.warmup e = true → f e = false)
    (hfail : f Ev.failCall = true) :
    (episodeLead W M w s).2.2.2.filter f
      = List.replicate completion_timeout
          (Ev.stepCall Phase.awaitCompletion) ++ [Ev.failCall] := by
  rw [episodeLead_steps] at hsteps
  have hwf : ((warmupLoop W M warmup_frames w
      (M.simulate_key_press '1' s)).2.2).filter f = [] :=
    filter_nil_of_all (warmupLoop_all_tick W M _ _ _) hwarm
  have haf := awaitLoop_filter_step W M Phase.awaitCompletion M.is_busy
    hstep hupd completion_timeout
    (warmupLoop W M warmup_frames w (M.simulate_key_press '1' s)).1
    (warmupLoop W M warmup_frames w (M.simulate_key_press '1' s)).2.1
  simp only [episodeLead, pressKey] at hsteps ⊢
  rw [if_pos (by rw [hsteps])]
  dsimp only
  simp [List.filter_append, hwf, haf, hsteps, hkey, hfail]

/-- For an event class absent from every part of the episode outside the
trigger-to-fail segment, the episode trace filters down to the
trigger-to-fail trace. -/
lemma runEpisode_filter_to_lead (W : WorldOps ω) (M : StateMachine σ)
    (Q : Nat) (st : LoopState σ ω) {f : Ev → Bool}
    (hsg : st.successful_grasps < Q)
    (h1 : ∀ n, f (Ev.runStart n) = false)
    (h2 : ∀ b, f (Ev.flagRead b) = false)
    (h3 : ∀ b, f (Ev.statusRead b) = false)
    (h4 : ∀ n, f (Ev.successInc n) = false)
    (h5 : f (Ev.warn Phase.awaitIdle) = false)
    (h6 : ∀ nm, f (Ev.keyPress 'r' nm) = false)
    (h7 : ∀ e, isTickOf Phase.awaitIdle e = true → f e = false)
    (h8 : ∀ e, isTickOf Phase.resetWait e = true → f e = false) :
    (runEpisode W M Q st).2.1.filter f
      = (episodeLead W M st.w st.sm).2.2.2.filter f := by
  have hidle : ∀ w2 s2, ((awaitLoop W M Phase.awaitIdle (notIdle M)
      idle_wait_timeout w2 s2).2.2.2).filter f = [] := fun w2 s2 =>
    filter_nil_of_all (awaitLoop_all_tick W M _ _ _ _ _) h7
  have hreset : ∀ w2 s2, ((awaitLoop W M Phase.resetWait (notIdle M)
      reset_wait_timeout w2 s2).2.2.2).filter f = [] := fun w2 s2 =>
    filter_nil_of_all (awaitLoop_all_tick W M _ _ _ _ _) h8
  simp only [runEpisode, pressKey]
  rw [if_neg (by omega)]
  split_ifs <;>
    simp [List.filter_append, hidle, hreset, h1, h2, h3, h4, h5, h6]

/-- The fail call occurs in an episode (entered below quota) exactly when
the completion wait consumed its full budget. -/
lemma runEpisode_countP_fail (W : WorldOps ω) (M : StateMachine σ)
    (Q : Nat) (st : LoopState σ ω) (hsg : st.successful_grasps < Q) :
    (runEpisode W M Q st).2.1.countP isFailEv
      = (if completion_timeout ≤ (episodeLead W M st.w st.sm).2.2.1
          then 1 else 0) := by
  have hfil := runEpisode_filter_to_lead W M Q st (f := isFailEv) hsg
    (by intro n; rfl) (by intro b; rfl) (by intro b; rfl)
    (by intro n; rfl) rfl (by intro nm; rfl)
    (tickOf_not_fail _) (tickOf_not_fail _)
  rw [List.countP_eq_length_filter, hfil, ← List.countP_eq_length_filter]
  exact episodeLead_countP_fail W M st.w st.sm

/-- C3: if the state machine never reports idle, an episode entered below
quota calls `fail_current_task` exactly once, and the call comes after
exactly the full completion-wait budget of 3600 stepper calls within the
completion-wait phase (warmup stepper calls are in a different phase and
not counted): the episode trace restricted to fail calls and
completion-wait stepper calls is 3600 stepper calls followed by the one
fail call. -/
theorem completion_timeout_force_fail :
    ∀ (σ ω : Type) (W : WorldOps ω) (M : StateMachine σ) (Q : Nat)
      (st : LoopState σ ω),
      (∀ s : σ, M.is_busy s = true) →
      st.successful_grasps < Q →
      (runEpisode W M Q st).2.1.countP isFailEv = 1
      ∧ (runEpisode W M Q st).2.1.filter
            (fun e => isFailEv e || isStepOf Phase.awaitCompletion e)
          = List.replicate 3600 (Ev.stepCall Phase.awaitCompletion)
              ++ [Ev.failCall] := by
  intro σ ω W M Q st hb hsg
  have hsteps : (episodeLead W M st.w st.sm).2.2.1 = completion_timeout := by
    rw [episodeLead_steps]
    exact (awaitLoop_full_iff W M Phase.awaitCompletion M.is_busy
      completion_timeout _ _).mpr (fun k _ => hb _)
  constructor
  · rw [runEpisode_countP_fail W M Q st hsg, if_pos (by rw [hsteps])]
  · have hfil := runEpisode_filter_to_lead W M Q st
      (f := fun e => isFailEv e || isStepOf Phase.awaitCompletion e) hsg
      (by intro n; rfl) (by intro b; rfl) (by intro b; rfl)
      (by intro n; rfl) rfl (by intro nm; rfl)
      (by
        intro e he
        show (isFailEv e || isStepOf Phase.awaitCompletion e) = false
        rw [tickOf_not_fail _ e he,
          tickOf_not_stepOf (by decide) e he]
        rfl)
      (by
        intro e he
        show (isFailEv e || isStepOf Phase.awaitCompletion e) = false
        rw [tickOf_not_fail _ e he,
          tickOf_not_stepOf (by decide) e he]
        rfl)
    rw [hfil]
    have := episodeLead_filter_timeout W M st.w st.sm
      (f := fun e => isFailEv e || isStepOf Phase.awaitCompletion e)
      hsteps (by simp [isFailEv, isStepOf]) (by simp [isFailEv, isStepOf])
      (by simp [isFailEv, isStepOf])
      (by
        intro e he
        show (isFailEv e || isStepOf Phase.awaitCompletion e) = false
        rw [tickOf_not_fail _ e he,
          tickOf_not_stepOf (by decide) e he]
        rfl)
      (by simp [isFailEv])
    rw [this]
    rfl

/-- Witness for C3: the always-busy machine. -/
theorem completion_timeout_force_fail_witness :
    (runEpisode unitWorld busySM 1
        (initState () ())).2.1.countP isFailEv = 1
    ∧ (runEpisode unitWorld busySM 1 (initState () ())).2.1.filter
          (fun e => isFailEv e || isStepOf Phase.awaitCompletion e)
        = List.replicate 3600 (Ev.stepCall Phase.awaitCompletion)
            ++ [Ev.failCall] :=
  completion_timeout_force_fail Unit Unit unitWorld busySM 1
    (initState () ()) (fun _ => rfl) (by decide)

/-- C4: an episode entered below quota instructs the state machine to
abort (`fail_current_task`) exactly when the machine polls busy at every
one of the 3600 completion-wait polls (the timeout budget elapses while
still busy); the call happens at most once, and an episode in which the
machine polls idle at some poll before the budget is exhausted is never
force-failed. -/
theorem force_fail_iff_busy_throughout :
    ∀ (σ ω : Type) (W : WorldOps ω) (M : StateMachine σ) (Q : Nat)
      (st : LoopState σ ω),
      st.successful_grasps < Q →
      ((runEpisode W M Q st).2.1.countP isFailEv = 1
          ↔ ∀ k, k < completion_timeout →
              M.is_busy (completionPollState W M st.w st.sm k) = true)
      ∧ ((runEpisode W M Q st).2.1.countP isFailEv = 1
          ∨ (runEpisode W M Q st).2.1.countP isFailEv = 0)
      ∧ ((∃ k, k < completion_timeout
            ∧ M.is_busy (completionPollState W M st.w st.sm k) = false)
          → (runEpisode W M Q st).2.1.countP isFailEv = 0) := by
  intro σ ω W M Q st hsg
  have hcount := runEpisode_countP_fail W M Q st hsg
  have hle : (episodeLead W M st.w st.sm).2.2.1 ≤ completion_timeout := by
    rw [episodeLead_steps]
    exact awaitLoop_steps_le W M Phase.awaitCompletion M.is_busy
      completion_timeout _ _
  have hiff : (episodeLead W M st.w st.sm).2.2.1 = completion_timeout
      ↔ ∀ k, k < completion_timeout →
          M.is_busy (completionPollState W M st.w st.sm k) = true := by
    rw [episodeLead_steps]
    exact awaitLoop_full_iff W M Phase.awaitCompletion M.is_busy
      completion_timeout _ _
  constructor
  · rw [hcount]
    constructor
    · intro h
      rcases Nat.lt_or_ge (episodeLead W M st.w st.sm).2.2.1
          completion_timeout with hlt | hge
      · rw [if_neg (by omega)] at h
        exact absurd h (by omega)
      · exact hiff.mp (by omega)
    · intro h
      rw [if_pos (by rw [hiff.mpr h])]
  · constructor
    · rw [hcount]
      split
      · exact Or.inl rfl
      · exact Or.inr rfl
    · intro hex
      rw [hcount, if_neg]
      intro hge
      have heq : (episodeLead W M st.w st.sm).2.2.1
          = completion_timeout := by omega
      obtain ⟨k, hk, hidle⟩ := hex
      have := hiff.mp heq k hk
      rw [this] at hidle
      exact Bool.noConfusion hidle

/-- Witness for C4: the always-busy machine below quota. -/
theorem force_fail_iff_busy_throughout_witness :
    ((runEpisode unitWorld busySM 1 (initState () ())).2.1.countP isFailEv
          = 1
        ↔ ∀ k, k < completion_timeout →
            busySM.is_busy
              (completionPollState unitWorld busySM () () k) = true)
    ∧ ((runEpisode unitWorld busySM 1
          (initState () ())).2.1.countP isFailEv = 1
        ∨ (runEpisode unitWorld busySM 1
            (initState () ())).2.1.countP isFailEv = 0)
    ∧ ((∃ k, k < completion_timeout
          ∧ busySM.is_busy
              (completionPollState unitWorld busySM () () k) = false)
        → (runEpisode unitWorld busySM 1
            (initState () ())).2.1.countP isFailEv = 0) :=
  force_fail_iff_busy_throughout Unit Unit unitWorld busySM 1
    (initState () ()) (by decide)

/-- Witness for C10 at a concrete input. -/
theorem counter_invariants_witness :
    (initState () () : LoopState Unit Unit).successful_grasps
        ≤ (initState () () : LoopState Unit Unit).total_runs
    ∧ ((runLoop unitWorld busySM 1 1 (initState () ())).1.successful_grasps
        ≤ (runLoop unitWorld busySM 1 1 (initState () ())).1.total_runs
      ∧ (initState () () : LoopState Unit Unit).successful_grasps
          ≤ (runLoop unitWorld busySM 1 1
              (initState () ())).1.successful_grasps
      ∧ (initState () () : LoopState Unit Unit).total_runs
          ≤ (runLoop unitWorld busySM 1 1 (initState () ())).1.total_runs) :=
  ⟨Nat.le_refl 0,
    counter_invariants.2 Unit Unit unitWorld busySM 1 1 (initState () ())
      (Nat.le_refl 0)⟩

lemma awaitLoop_cond_false (W : WorldOps ω) (M : StateMachine σ) (p : Phase)
    (cond : σ → Bool) (fuel : Nat) (w : ω) (s : σ) (h : cond s = false) :
    awaitLoop W M p cond fuel w s = (w, s, 0, []) := by
  match fuel with
  | 0 => rfl
  | n + 1 =>
    simp only [awaitLoop]
    rw [if_neg (by simp [h])]

lemma tickIter_unit (M : StateMachine σ) (p : Phase) :
    ∀ (k : Nat) (s : σ),
      tickIter unitWorld M p k () s = ((), M.update^[k] s) := by
  intro k
  induction k with
  | zero => intro s; simp [tickIter]
  | succ m ih =>
    intro s
    have htick : tick unitWorld M p () s
        = ((), M.update s, [Ev.stepCall p, Ev.smUpdate p]) := rfl
    rw [tickIter_succ, htick]
    dsimp only
    rw [ih, Function.iterate_succ_apply]

lemma mockUpdate_iter_idle (c : MockConfig) :
    ∀ (n e : Nat) (ls f : Bool),
      (mockUpdate c)^[n] ⟨MockMode.idle, e, ls, f⟩
        = ⟨MockMode.idle, e, ls, f⟩ := by
  intro n
  induction n with
  | zero => intro e ls f; rfl
  | succ m ih =>
    intro e ls f
    rw [Function.iterate_succ_apply]
    have h1 : mockUpdate c ⟨MockMode.idle, e, ls, f⟩
        = ⟨MockMode.idle, e, ls, f⟩ := rfl
    rw [h1, ih]

lemma mockUpdate_iter_grasp (c : MockConfig) :
    ∀ (n i l e : Nat) (ls f : Bool),
      (mockUpdate c)^[n] ⟨MockMode.grasp i l, e, ls, f⟩
        = if n ≤ l then ⟨MockMode.grasp i (l - n), e, ls, f⟩
          else ⟨MockMode.idle, e, (c.script i).outcome,
            f || (c.script i).hard_reset⟩ := by
  intro n
  induction n with
  | zero => intro i l e ls f; simp
  | succ m ih =>
    intro i l e ls f
    rw [Function.iterate_succ_apply]
    match l with
    | 0 =>
      have h1 : mockUpdate c ⟨MockMode.grasp i 0, e, ls, f⟩
          = ⟨MockMode.idle, e, (c.script i).outcome,
              f || (c.script i).hard_reset⟩ := rfl
      rw [h1, mockUpdate_iter_idle, if_neg (by omega)]
    | l + 1 =>
      have h1 : mockUpdate c ⟨MockMode.grasp i (l + 1), e, ls, f⟩
          = ⟨MockMode.grasp i l, e, ls, f⟩ := rfl
      rw [h1, ih]
      by_cases h : m ≤ l
      · rw [if_pos h, if_pos (by omega)]
        have h2 : l + 1 - (m + 1) = l - m := by omega
        rw [h2]
      · rw [if_neg h, if_neg (by omega)]

lemma mockUpdate_iter_resetting (c : MockConfig) :
    ∀ (n l e : Nat) (ls f : Bool),
      (mockUpdate c)^[n] ⟨MockMode.resetting l, e, ls, f⟩
        = if n ≤ l then ⟨MockMode.resetting (l - n), e, ls, f⟩
          else ⟨MockMode.idle, e, ls, f⟩ := by
  intro n
  induction n with
  | zero => intro l e ls f; simp
  | succ m ih =>
    intro l e ls f
    rw [Function.iterate_succ_apply]
    match l with
    | 0 =>
      have h1 : mockUpdate c ⟨MockMode.resetting 0, e, ls, f⟩
          = ⟨MockMode.idle, e, ls, f⟩ := rfl
      rw [h1, mockUpdate_iter_idle, if_neg (by omega)]
    | l + 1 =>
      have h1 : mockUpdate c ⟨MockMode.resetting (l + 1), e, ls, f⟩
          = ⟨MockMode.resetting l, e, ls, f⟩ := rfl
      rw [h1, ih]
      by_cases h : m ≤ l
      · rw [if_pos h, if_pos (by omega)]
        have h2 : l + 1 - (m + 1) = l - m := by omega
        rw [h2]
      · rw [if_neg h, if_neg (by omega)]

/-- States reached by the trigger-to-fail part of one mocked episode
started from an idle machine with a clear flag: the machine ends idle with
the scripted outcome recorded and the flag as scripted (clear when the
script raises none), and the completion wait runs
`busy_ticks + 1 - warmup_frames` iterations. -/
lemma mock_episodeLead (c : MockConfig) (i : Nat) (ls : Bool)
    (hb : (c.script i).busy_ticks ≤ 3608)
    (hhr : (c.script i).hard_reset = false) :
    (episodeLead unitWorld (mockSM c) ()
        ⟨MockMode.idle, i, ls, false⟩).2.1
      = ⟨MockMode.idle, i + 1, (c.script i).outcome, false⟩
    ∧ (episodeLead unitWorld (mockSM c) ()
        ⟨MockMode.idle, i, ls, false⟩).2.2.1
        = (c.script i).busy_ticks + 1 - warmup_frames := by
  have hwf : warmup_frames = 10 := rfl
  have hct : completion_timeout = 3600 := rfl
  have hkey : (mockSM c).simulate_key_press '1' ⟨MockMode.idle, i, ls, false⟩
      = ⟨MockMode.grasp i (c.script i).busy_ticks, i + 1, ls, false⟩ := by
    show mockKeyPress c '1' ⟨MockMode.idle, i, ls, false⟩ = _
    simp [mockKeyPress]
  have hupd : (mockSM c).update = mockUpdate c := rfl
  have hpoll : ∀ k, (tickIter unitWorld (mockSM c) Phase.awaitCompletion k
      (warmupLoop unitWorld (mockSM c) warmup_frames ()
        ⟨MockMode.grasp i (c.script i).busy_ticks, i + 1, ls, false⟩).1
      (warmupLoop unitWorld (mockSM c) warmup_frames ()
        ⟨MockMode.grasp i (c.script i).busy_ticks, i + 1, ls, false⟩).2.1).2
      = (mockUpdate c)^[k + warmup_frames]
          ⟨MockMode.grasp i (c.script i).busy_ticks, i + 1, ls, false⟩ := by
    intro k
    have hw1 : (warmupLoop unitWorld (mockSM c) warmup_frames ()
        ⟨MockMode.grasp i (c.script i).busy_ticks, i + 1, ls, false⟩).1
        = () := rfl
    rw [hw1, warmupLoop_state, tickIter_unit, hupd]
    dsimp only
    rw [tickIter_unit, hupd]
    dsimp only
    rw [← Function.iterate_add_apply]
  have hbusy : ∀ k, k < (c.script i).busy_ticks + 1 - warmup_frames →
      (mockSM c).is_busy ((tickIter unitWorld (mockSM c)
        Phase.awaitCompletion k
        (warmupLoop unitWorld (mockSM c) warmup_frames ()
          ⟨MockMode.grasp i (c.script i).busy_ticks, i + 1, ls, false⟩).1
        (warmupLoop unitWorld (mockSM c) warmup_frames ()
          ⟨MockMode.grasp i (c.script i).busy_ticks, i + 1, ls,
            false⟩).2.1).2) = true := by
    intro k hk
    rw [hpoll k, mockUpdate_iter_grasp,
      if_pos (by rw [hwf] at hk ⊢; omega)]
    rfl
  have hidle : (mockSM c).is_busy ((tickIter unitWorld (mockSM c)
      Phase.awaitCompletion ((c.script i).busy_ticks + 1 - warmup_frames)
      (warmupLoop unitWorld (mockSM c) warmup_frames ()
        ⟨MockMode.grasp i (c.script i).busy_ticks, i + 1, ls, false⟩).1
      (warmupLoop unitWorld (mockSM c) warmup_frames ()
        ⟨MockMode.grasp i (c.script i).busy_ticks, i + 1, ls,
          false⟩).2.1).2) = false := by
    rw [hpoll, mockUpdate_iter_grasp, if_neg (by rw [hwf]; omega)]
    rfl
  have hexits := awaitLoop_exits unitWorld (mockSM c) Phase.awaitCompletion
    (mockSM c).is_busy ((c.script i).busy_ticks + 1 - warmup_frames)
    completion_timeout
    (warmupLoop unitWorld (mockSM c) warmup_frames ()
      ⟨MockMode.grasp i (c.script i).busy_ticks, i + 1, ls, false⟩).1
    (warmupLoop unitWorld (mockSM c) warmup_frames ()
      ⟨MockMode.grasp i (c.script i).busy_ticks, i + 1, ls, false⟩).2.1
    (by rw [hwf, hct]; omega) hbusy hidle
  constructor
  · simp only [episodeLead, pressKey]
    rw [hkey, hexits.2.2, if_neg (by rw [hwf, hct]; omega)]
    dsimp only
    rw [hexits.2.1, hpoll, mockUpdate_iter_grasp,
      if_neg (by rw [hwf]; omega), hhr]
    rfl
  · simp only [episodeLead, pressKey]
    rw [hkey, hexits.2.2, if_neg (by rw [hwf, hct]; omega)]

/-- One loop iteration on a mock whose current episode completes within
budget and raises no critical flag, started from an idle machine with a
clear flag: the machine ends idle at the next episode index with the
scripted outcome recorded and the flag clear, success is tallied exactly
when the script says so, the episode ends in `stop` exactly when the quota
is then met (`normal` otherwise, never `voided`), and no trigger is
pressed while the machine is away from IDLE. -/
lemma mock_runEpisode_good (c : MockConfig) (Q i sg tot : Nat) (ls : Bool)
    (hb : (c.script i).busy_ticks ≤ 3608)
    (hhr : (c.script i).hard_reset = false)
    (hres : c.reset_ticks ≤ 298)
    (hsg : sg < Q) :
    ∃ tr,
      runEpisode unitWorld (mockSM c) Q
          ⟨⟨MockMode.idle, i, ls, false⟩, (), sg, tot⟩
        = (⟨⟨MockMode.idle, i + 1, (c.script i).outcome, false⟩, (),
            (if (c.script i).outcome then sg + 1 else sg), tot + 1⟩, tr,
           (if Q ≤ (if (c.script i).outcome then sg + 1 else sg)
              then EpOutcome.stop else EpOutcome.normal))
      ∧ tr.all trigAtIdle = true := by
  obtain ⟨hpre1, hpre2⟩ := mock_episodeLead c i ls hb hhr
  have hupd : (mockSM c).update = mockUpdate c := rfl
  have hiwt : idle_wait_timeout = 300 := rfl
  have hrwt : reset_wait_timeout = 300 := rfl
  have hpreAll : (episodeLead unitWorld (mockSM c) ()
      ⟨MockMode.idle, i, ls, false⟩).2.2.2.all trigAtIdle = true :=
    episodeLead_all _ _ _ _ rfl (tickOf_trigAtIdle _)
      (tickOf_trigAtIdle _) rfl
  have hw1unit : (episodeLead unitWorld (mockSM c) ()
      ⟨MockMode.idle, i, ls, false⟩).1 = () := rfl
  have hflagread : (mockSM c).get_and_clear_hard_reset_flag
      ⟨MockMode.idle, i + 1, (c.script i).outcome, false⟩
      = (false, ⟨MockMode.idle, i + 1, (c.script i).outcome, false⟩) := rfl
  have hwas : (mockSM c).get_last_attempt_status
      ⟨MockMode.idle, i + 1, (c.script i).outcome, false⟩
      = (c.script i).outcome := rfl
  have hnotidle : notIdle (mockSM c)
      ⟨MockMode.idle, i + 1, (c.script i).outcome, false⟩ = false := rfl
  have hkeyr : (mockSM c).simulate_key_press 'r'
      ⟨MockMode.idle, i + 1, (c.script i).outcome, false⟩
      = ⟨MockMode.resetting c.reset_ticks, i + 1, (c.script i).outcome,
          false⟩ := by
    show mockKeyPress c 'r' _ = _
    simp [mockKeyPress]
  have hkeyrstate : (mockSM c).get_current_state
      ⟨MockMode.idle, i + 1, (c.script i).outcome, false⟩ = "IDLE" := rfl
  simp only [runEpisode, pressKey]
  dsimp only
  rw [if_neg (show ¬ Q ≤ sg by omega)]
  rw [hpre1, hw1unit, hflagread]
  dsimp only
  rw [if_neg (show ¬ (false = true) by simp)]
  rw [hwas]
  rw [awaitLoop_cond_false unitWorld (mockSM c) Phase.awaitIdle
    (notIdle (mockSM c)) idle_wait_timeout ()
    ⟨MockMode.idle, i + 1, (c.script i).outcome, false⟩ hnotidle]
  dsimp only
  rw [if_neg (show ¬ idle_wait_timeout ≤ 0 by rw [hiwt]; omega)]
  by_cases hq : Q ≤ (if (c.script i).outcome = true then sg + 1 else sg)
  · rw [if_pos hq]
    rw [if_pos hq]
    refine ⟨_, rfl, ?_⟩
    simp only [List.all_append, hpreAll, List.all_cons, List.all_nil]
    split <;> simp [trigAtIdle]
  · rw [if_neg hq]
    rw [if_neg hq]
    rw [hkeyr, hkeyrstate]
    have hresetbusy : ∀ k, k < c.reset_ticks + 1 →
        notIdle (mockSM c) ((tickIter unitWorld (mockSM c) Phase.resetWait k
          () ⟨MockMode.resetting c.reset_ticks, i + 1, (c.script i).outcome,
            false⟩).2) = true := by
      intro k hk
      rw [tickIter_unit, hupd]
      dsimp only
      rw [mockUpdate_iter_resetting, if_pos (by omega)]
      rfl
    have hresetidle : notIdle (mockSM c) ((tickIter unitWorld (mockSM c)
        Phase.resetWait (c.reset_ticks + 1) ()
        ⟨MockMode.resetting c.reset_ticks, i + 1, (c.script i).outcome,
          false⟩).2) = false := by
      rw [tickIter_unit, hupd]
      dsimp only
      rw [mockUpdate_iter_resetting, if_neg (by omega)]
      rfl
    have hrexits := awaitLoop_exits unitWorld (mockSM c) Phase.resetWait
      (notIdle (mockSM c)) (c.reset_ticks + 1) reset_wait_timeout ()
      ⟨MockMode.resetting c.reset_ticks, i + 1, (c.script i).outcome, false⟩
      (by rw [hrwt]; omega) hresetbusy hresetidle
    have hresetAll : ((awaitLoop unitWorld (mockSM c) Phase.resetWait
        (notIdle (mockSM c)) reset_wait_timeout ()
        ⟨MockMode.resetting c.reset_ticks, i + 1, (c.script i).outcome,
          false⟩).2.2.2).all trigAtIdle = true :=
      all_of_all (awaitLoop_all_tick _ _ _ _ _ _ _) (tickOf_trigAtIdle _)
    rw [hrexits.2.1, tickIter_unit, hupd]
    dsimp only
    rw [mockUpdate_iter_resetting, if_neg (by omega)]
    refine ⟨_, rfl, ?_⟩
    simp only [List.all_append, hpreAll, hresetAll, List.all_cons,
      List.all_nil]
    split <;> simp [trigAtIdle]

lemma if_true_bool {α : Sort u} (a b : α) :
    (if (true : Bool) = true then a else b) = a := rfl

/-- A below-quota iteration that does not `break` hands control back to
the top of the loop (the next TRIGGER) with the updated state. -/
lemma runLoop_continue (W : WorldOps ω) (M : StateMachine σ) (Q : Nat)
    (st : LoopState σ ω) (n : Nat) (hsg : st.successful_grasps < Q)
    (ho : (runEpisode W M Q st).2.2 ≠ EpOutcome.stop) :
    runLoop W M Q (n + 1) st
      = ((runLoop W M Q n (runEpisode W M Q st).1).1,
         (runEpisode W M Q st).2.1
           ++ (runLoop W M Q n (runEpisode W M Q st).1).2.1,
         (runLoop W M Q n (runEpisode W M Q st).1).2.2) := by
  simp only [runLoop]
  rw [if_pos hsg]

/-- On an all-good mock script, `n` iterations starting `n` successes
below quota reach the quota, terminate the loop, add `n` to the attempt
counter, and never press the trigger away from IDLE. -/
lemma mock_runLoop_good (c : MockConfig) (Q : Nat)
    (hgood : ∀ j, (c.script j).busy_ticks ≤ 3608
        ∧ (c.script j).hard_reset = false ∧ (c.script j).outcome = true)
    (hres : c.reset_ticks ≤ 298) :
    ∀ (n i tot : Nat) (ls : Bool) (sg : Nat), sg + n = Q → 1 ≤ n →
      ∃ st2 tr,
        runLoop unitWorld (mockSM c) Q n
            ⟨⟨MockMode.idle, i, ls, false⟩, (), sg, tot⟩
          = (st2, tr, true)
        ∧ st2.successful_grasps = Q ∧ st2.total_runs = tot + n
        ∧ tr.all trigAtIdle = true := by
  intro n
  induction n with
  | zero => intro i tot ls sg hsum h1; omega
  | succ m ih =>
    intro i tot ls sg hsum h1
    have hsg : sg < Q := by omega
    obtain ⟨tre, heq, hall⟩ := mock_runEpisode_good c Q i sg tot ls
      (hgood i).1 (hgood i).2.1 hres hsg
    rw [(hgood i).2.2, if_true_bool] at heq
    simp only [runLoop]
    rw [if_pos hsg, heq]
    by_cases hq2 : Q ≤ sg + 1
    · rw [if_pos hq2]
      dsimp only
      refine ⟨_, _, rfl, ?_, ?_, hall⟩
      · dsimp only
        omega
      · dsimp only
        omega
    · rw [if_neg hq2]
      dsimp only
      obtain ⟨st2, tr2, hrec, hsg2, htot2, hall2⟩ :=
        ih (i + 1) (tot + 1) true (sg + 1) (by omega) (by omega)
      refine ⟨st2, tre ++ tr2, ?_, hsg2, by omega, ?_⟩
      · rw [hrec]
      · simp [List.all_append, hall, hall2]

/-- C1: for every quota `Q ≥ 1`, against any mocked state machine whose
every episode completes within the completion budget with a successful
outcome and no critical failure (and whose scene resets complete within
the reset-wait budget), the outer loop terminates: it reaches its exit
with `successful_grasps = Q` (and exactly `Q` attempts). -/
theorem quota_termination :
    ∀ (Q : Nat), 1 ≤ Q →
      ∀ (c : MockConfig),
        (∀ j, (c.script j).busy_ticks ≤ 3608
            ∧ (c.script j).hard_reset = false
            ∧ (c.script j).outcome = true) →
        c.reset_ticks ≤ 298 →
        ∃ st2 tr,
          runLoop unitWorld (mockSM c) Q Q (initState mockInit ())
              = (st2, tr, true)
            ∧ st2.successful_grasps = Q ∧ st2.total_runs = Q := by
  intro Q hQ c hgood hres
  obtain ⟨st2, tr, h1, h2, h3, _⟩ :=
    mock_runLoop_good c Q hgood hres Q 0 0 false 0 (by omega) hQ
  exact ⟨st2, tr, h1, h2, by omega⟩

/-- Witness for C1: quota 1 against the all-good instant mock. -/
theorem quota_termination_witness :
    (1 ≤ 1)
    ∧ ∃ st2 tr,
        runLoop unitWorld (mockSM mockCfgAllGood) 1 1 (initState mockInit ())
            = (st2, tr, true)
          ∧ st2.successful_grasps = 1 ∧ st2.total_runs = 1 :=
  ⟨Nat.le_refl 1,
    quota_termination 1 (Nat.le_refl 1) mockCfgAllGood
      (fun j => ⟨Nat.zero_le 3608, rfl, rfl⟩) (by decide)⟩

/-- C2: when the critical-failure flag read during EVALUATE returns true,
the episode is void: the success counter is unchanged, the last-attempt
outcome is never read (no `statusRead` event occurs), a scene-reset key
press is injected (exactly one `'r'` press), the iteration ends with
`continue`, and the loop restarts from the top (TRIGGER). -/
theorem void_episode_preserves_counters :
    ∀ (σ ω : Type) (W : WorldOps ω) (M : StateMachine σ) (Q : Nat)
      (st : LoopState σ ω),
      st.successful_grasps < Q →
      (M.get_and_clear_hard_reset_flag
          (episodeLead W M st.w st.sm).2.1).1 = true →
      (runEpisode W M Q st).1.successful_grasps = st.successful_grasps
      ∧ (runEpisode W M Q st).2.1.countP isStatusReadEv = 0
      ∧ (runEpisode W M Q st).2.1.countP (isKeyPressOf 'r') = 1
      ∧ (runEpisode W M Q st).2.2 = EpOutcome.voided
      ∧ ∀ n, runLoop W M Q (n + 1) st
          = ((runLoop W M Q n (runEpisode W M Q st).1).1,
             (runEpisode W M Q st).2.1
               ++ (runLoop W M Q n (runEpisode W M Q st).1).2.1,
             (runLoop W M Q n (runEpisode W M Q st).1).2.2) := by
  intro σ ω W M Q st hsg hflag
  have hpreStat : (episodeLead W M st.w st.sm).2.2.2.countP
      isStatusReadEv = 0 :=
    episodeLead_countP W M _ _ rfl (tickOf_not_statusRead _)
      (tickOf_not_statusRead _) rfl
  have hpreKey : (episodeLead W M st.w st.sm).2.2.2.countP
      (isKeyPressOf 'r') = 0 :=
    episodeLead_countP W M _ _ rfl (tickOf_not_keyPress _ _)
      (tickOf_not_keyPress _ _) rfl
  have hsucc : (runEpisode W M Q st).1.successful_grasps
      = st.successful_grasps := by
    simp only [runEpisode, pressKey]
    rw [if_neg (show ¬ Q ≤ st.successful_grasps by omega), if_pos hflag]
  have htrace : (runEpisode W M Q st).2.1
      = [Ev.runStart (st.total_runs + 1)]
        ++ (episodeLead W M st.w st.sm).2.2.2
        ++ [Ev.flagRead (M.get_and_clear_hard_reset_flag
            (episodeLead W M st.w st.sm).2.1).1]
        ++ [Ev.keyPress 'r' (M.get_current_state
            (M.get_and_clear_hard_reset_flag
              (episodeLead W M st.w st.sm).2.1).2)] := by
    simp only [runEpisode, pressKey]
    rw [if_neg (show ¬ Q ≤ st.successful_grasps by omega), if_pos hflag]
  have hout : (runEpisode W M Q st).2.2 = EpOutcome.voided := by
    simp only [runEpisode, pressKey]
    rw [if_neg (show ¬ Q ≤ st.successful_grasps by omega), if_pos hflag]
  refine ⟨hsucc, ?_, ?_, hout, ?_⟩
  · rw [htrace]
    simp [List.countP_append, hpreStat, isStatusReadEv, List.countP_cons,
      List.countP_nil]
  · rw [htrace]
    simp [List.countP_append, hpreKey, isKeyPressOf, List.countP_cons,
      List.countP_nil]
  · intro n
    exact runLoop_continue W M Q st n hsg (by simp [hout])

/-- Witness for C2: a mock whose first episode raises the critical
flag. -/
theorem void_episode_preserves_counters_witness :
    ((initState mockInit () : LoopState MockState Unit).successful_grasps
        < 1)
    ∧ (((mockSM mockCfgVoidFirst).get_and_clear_hard_reset_flag
        (episodeLead unitWorld (mockSM mockCfgVoidFirst)
          (initState mockInit () : LoopState MockState Unit).w
          (initState mockInit () : LoopState MockState Unit).sm).2.1).1
        = true)
    ∧ ((runEpisode unitWorld (mockSM mockCfgVoidFirst) 1
          (initState mockInit ())).1.successful_grasps
        = (initState mockInit ()
            : LoopState MockState Unit).successful_grasps
      ∧ (runEpisode unitWorld (mockSM mockCfgVoidFirst) 1
          (initState mockInit ())).2.1.countP isStatusReadEv = 0
      ∧ (runEpisode unitWorld (mockSM mockCfgVoidFirst) 1
          (initState mockInit ())).2.1.countP (isKeyPressOf 'r') = 1
      ∧ (runEpisode unitWorld (mockSM mockCfgVoidFirst) 1
          (initState mockInit ())).2.2 = EpOutcome.voided
      ∧ ∀ n, runLoop unitWorld (mockSM mockCfgVoidFirst) 1 (n + 1)
            (initState mockInit ())
          = ((runLoop unitWorld (mockSM mockCfgVoidFirst) 1 n
              (runEpisode unitWorld (mockSM mockCfgVoidFirst) 1
                (initState mockInit ())).1).1,
             (runEpisode unitWorld (mockSM mockCfgVoidFirst) 1
               (initState mockInit ())).2.1
               ++ (runLoop unitWorld (mockSM mockCfgVoidFirst) 1 n
                  (runEpisode unitWorld (mockSM mockCfgVoidFirst) 1
                    (initState mockInit ())).1).2.1,
             (runLoop unitWorld (mockSM mockCfgVoidFirst) 1 n
               (runEpisode unitWorld (mockSM mockCfgVoidFirst) 1
                 (initState mockInit ())).1).2.2)) :=
  ⟨by decide, by decide,
    void_episode_preserves_counters MockState Unit unitWorld
      (mockSM mockCfgVoidFirst) 1 (initState mockInit ())
      (by decide) (by decide)⟩

set_option maxRecDepth 40000 in
/-- C7 counterexample: on a mock whose first episode raises the critical
flag and whose scene reset takes 50 ticks, the run emits the second
episode's TRIGGER while the machine still reports `"RESETTING"`: after a
voided episode the code continues straight to the next trigger without
waiting for idle. -/
theorem trigger_while_not_idle_ce :
    triggersOnlyWhenIdle
        (runLoop unitWorld (mockSM mockCfgVoidFirst) 1 2
          (initState mockInit ())).2.1 = false := by
  decide

/-- C7 amended: on any mock whose episodes complete within budget without
critical failures and whose scene resets complete within the reset-wait
budget, no TRIGGER is ever emitted while the machine's symbolic state is
away from `"IDLE"`. -/
theorem trigger_only_when_idle_amended :
    ∀ (c : MockConfig),
      (∀ j, (c.script j).busy_ticks ≤ 3608
          ∧ (c.script j).hard_reset = false) →
      c.reset_ticks ≤ 298 →
      ∀ (Q fuel i tot : Nat) (ls : Bool) (sg : Nat),
        triggersOnlyWhenIdle
            (runLoop unitWorld (mockSM c) Q fuel
              ⟨⟨MockMode.idle, i, ls, false⟩, (), sg, tot⟩).2.1 = true := by
  intro c hgood hres Q fuel
  induction fuel with
  | zero => intro i tot ls sg; rfl
  | succ m ih =>
    intro i tot ls sg
    simp only [runLoop]
    by_cases hsg : sg < Q
    · rw [if_pos hsg]
      obtain ⟨tre, heq, hall⟩ := mock_runEpisode_good c Q i sg tot ls
        (hgood i).1 (hgood i).2 hres hsg
      rw [heq]
      by_cases hq : Q ≤ (if (c.script i).outcome = true then sg + 1 else sg)
      · rw [if_pos hq]
        dsimp only
        exact hall
      · rw [if_neg hq]
        dsimp only
        have hrec := ih (i + 1) (tot + 1) ((c.script i).outcome)
          (if (c.script i).outcome = true then sg + 1 else sg)
        simp only [triggersOnlyWhenIdle] at hrec ⊢
        simp [List.all_append, hall, hrec]
    · rw [if_neg hsg]
      rfl

/-- Witness for the amended C7. -/
theorem trigger_only_when_idle_amended_witness :
    ((∀ j, (mockCfgAllGood.script j).busy_ticks ≤ 3608
        ∧ (mockCfgAllGood.script j).hard_reset = false)
      ∧ mockCfgAllGood.reset_ticks ≤ 298)
    ∧ triggersOnlyWhenIdle
        (runLoop unitWorld (mockSM mockCfgAllGood) 1 1
          ⟨⟨MockMode.idle, 0, false, false⟩, (), 0, 0⟩).2.1 = true :=
  ⟨⟨fun j => ⟨Nat.zero_le 3608, rfl⟩, by decide⟩,
    trigger_only_when_idle_amended mockCfgAllGood
      (fun j => ⟨Nat.zero_le 3608, rfl⟩) (by decide) 1 1 0 0 false 0⟩

lemma tickOf_not_warn (p q : Phase) :
    ∀ e, isTickOf p e = true → isWarnOf q e = false := by
  intro e
  cases e <;> simp [isTickOf, isWarnOf]

set_option maxRecDepth 40000 in
/-- C8 counterexample: on a mock whose episodes fail instantly and whose
scene reset takes 400 ticks, the RESET-completion wait consumes its full
300-tick budget with the machine still away from IDLE (a soft-wait
timeout), yet no reset-wait warning is ever logged: the warning of the
claim exists only for the AWAIT_IDLE wait. -/
theorem reset_wait_timeout_not_logged_ce :
    (runLoop unitWorld (mockSM mockCfgSlowReset) 2 1
        (initState mockInit ())).2.1.countP (isStepOf Phase.resetWait)
      = 300
    ∧ (runLoop unitWorld (mockSM mockCfgSlowReset) 2 1
        (initState mockInit ())).2.1.countP (isWarnOf Phase.resetWait)
      = 0
    ∧ mockCurrentState
        (runLoop unitWorld (mockSM mockCfgSlowReset) 2 1
          (initState mockInit ())).1.sm ≠ "IDLE" := by
  decide

/-- C8 amended: in any below-quota episode that is not voided, the
AWAIT_IDLE timeout warning is logged exactly when the idle wait consumes
its full 300-tick budget; the RESET-wait timeout is never logged; and both
soft-wait timeouts are non-fatal - the iteration always ends in `stop` or
`normal`, and when it does not `break` the loop proceeds to the next
iteration regardless. -/
theorem soft_timeout_amended :
    ∀ (σ ω : Type) (W : WorldOps ω) (M : StateMachine σ) (Q : Nat)
      (st : LoopState σ ω),
      st.successful_grasps < Q →
      (M.get_and_clear_hard_reset_flag
          (episodeLead W M st.w st.sm).2.1).1 = false →
      ((runEpisode W M Q st).2.1.countP (isWarnOf Phase.awaitIdle) = 1
          ↔ (runEpisode W M Q st).2.1.countP (isStepOf Phase.awaitIdle)
              = idle_wait_timeout)
      ∧ (runEpisode W M Q st).2.1.countP (isWarnOf Phase.resetWait) = 0
      ∧ ((runEpisode W M Q st).2.2 = EpOutcome.stop
          ∨ (runEpisode W M Q st).2.2 = EpOutcome.normal)
      ∧ ((runEpisode W M Q st).2.2 ≠ EpOutcome.stop →
          ∀ n, runLoop W M Q (n + 1) st
            = ((runLoop W M Q n (runEpisode W M Q st).1).1,
               (runEpisode W M Q st).2.1
                 ++ (runLoop W M Q n (runEpisode W M Q st).1).2.1,
               (runLoop W M Q n (runEpisode W M Q st).1).2.2)) := by
  intro σ ω W M Q st hsg hflag
  have hpreWI : (episodeLead W M st.w st.sm).2.2.2.countP
      (isWarnOf Phase.awaitIdle) = 0 :=
    episodeLead_countP W M _ _ rfl (tickOf_not_warn _ _)
      (tickOf_not_warn _ _) rfl
  have hpreWR : (episodeLead W M st.w st.sm).2.2.2.countP
      (isWarnOf Phase.resetWait) = 0 :=
    episodeLead_countP W M _ _ rfl (tickOf_not_warn _ _)
      (tickOf_not_warn _ _) rfl
  have hpreSI : (episodeLead W M st.w st.sm).2.2.2.countP
      (isStepOf Phase.awaitIdle) = 0 :=
    episodeLead_countP W M _ _ rfl
      (tickOf_not_stepOf (by decide)) (tickOf_not_stepOf (by decide)) rfl
  have hWIidle : ∀ w2 s2, ((awaitLoop W M Phase.awaitIdle (notIdle M)
      idle_wait_timeout w2 s2).2.2.2).countP (isWarnOf Phase.awaitIdle)
      = 0 := fun w2 s2 =>
    countP_zero_of_all (awaitLoop_all_tick W M _ _ _ _ _)
      (tickOf_not_warn _ _)
  have hWRidle : ∀ w2 s2, ((awaitLoop W M Phase.awaitIdle (notIdle M)
      idle_wait_timeout w2 s2).2.2.2).countP (isWarnOf Phase.resetWait)
      = 0 := fun w2 s2 =>
    countP_zero_of_all (awaitLoop_all_tick W M _ _ _ _ _)
      (tickOf_not_warn _ _)
  have hWIreset : ∀ w2 s2, ((awaitLoop W M Phase.resetWait (notIdle M)
      reset_wait_timeout w2 s2).2.2.2).countP (isWarnOf Phase.awaitIdle)
      = 0 := fun w2 s2 =>
    countP_zero_of_all (awaitLoop_all_tick W M _ _ _ _ _)
      (tickOf_not_warn _ _)
  have hWRreset : ∀ w2 s2, ((awaitLoop W M Phase.resetWait (notIdle M)
      reset_wait_timeout w2 s2).2.2.2).countP (isWarnOf Phase.resetWait)
      = 0 := fun w2 s2 =>
    countP_zero_of_all (awaitLoop_all_tick W M _ _ _ _ _)
      (tickOf_not_warn _ _)
  have hSIreset : ∀ w2 s2, ((awaitLoop W M Phase.resetWait (notIdle M)
      reset_wait_timeout w2 s2).2.2.2).countP (isStepOf Phase.awaitIdle)
      = 0 := fun w2 s2 =>
    countP_zero_of_all (awaitLoop_all_tick W M _ _ _ _ _)
      (tickOf_not_stepOf (by decide))
  have hSIcount := awaitLoop_countP_step W M Phase.awaitIdle (notIdle M)
    idle_wait_timeout
  have hSIle := awaitLoop_steps_le W M Phase.awaitIdle (notIdle M)
    idle_wait_timeout
  have hiwt : idle_wait_timeout = 300 := rfl
  have hout : (runEpisode W M Q st).2.2 = EpOutcome.stop
      ∨ (runEpisode W M Q st).2.2 = EpOutcome.normal := by
    simp only [runEpisode, pressKey]
    rw [if_neg (show ¬ Q ≤ st.successful_grasps by omega),
      if_neg (by simp [hflag])]
    split_ifs <;> first
      | exact Or.inl rfl
      | exact Or.inr rfl
  have hk := hSIle (episodeLead W M st.w st.sm).1
    (M.get_and_clear_hard_reset_flag (episodeLead W M st.w st.sm).2.1).2
  have hkc := hSIcount (episodeLead W M st.w st.sm).1
    (M.get_and_clear_hard_reset_flag (episodeLead W M st.w st.sm).2.1).2
  refine ⟨?_, ?_, hout, ?_⟩
  · simp only [runEpisode, pressKey]
    rw [if_neg (show ¬ Q ≤ st.successful_grasps by omega),
      if_neg (by simp [hflag])]
    split_ifs with h1 h2 h3 <;>
      (simp [List.countP_append, hpreWI, hpreSI, hWIidle, hWIreset,
        hSIreset, hkc, List.countP_cons, List.countP_nil,
        isWarnOf, isStepOf] ; try omega)
  · simp only [runEpisode, pressKey]
    rw [if_neg (show ¬ Q ≤ st.successful_grasps by omega),
      if_neg (by simp [hflag])]
    split_ifs <;>
      simp [List.countP_append, hpreWR, hWRidle, hWRreset,
        List.countP_cons, List.countP_nil, isWarnOf]
  · intro hns n
    exact runLoop_continue W M Q st n hsg hns

/-- Witness for the amended C8: the slow-reset mock, where the reset wait
does time out. -/
theorem soft_timeout_amended_witness :
    ((initState mockInit () : LoopState MockState Unit).successful_grasps
        < 2)
    ∧ (((mockSM mockCfgSlowReset).get_and_clear_hard_reset_flag
        (episodeLead unitWorld (mockSM mockCfgSlowReset)
          (initState mockInit () : LoopState MockState Unit).w
          (initState mockInit () : LoopState MockState Unit).sm).2.1).1
        = false)
    ∧ (((runEpisode unitWorld (mockSM mockCfgSlowReset) 2
            (initState mockInit ())).2.1.countP
            (isWarnOf Phase.awaitIdle) = 1
          ↔ (runEpisode unitWorld (mockSM mockCfgSlowReset) 2
              (initState mockInit ())).2.1.countP
              (isStepOf Phase.awaitIdle) = idle_wait_timeout)
        ∧ (runEpisode unitWorld (mockSM mockCfgSlowReset) 2
            (initState mockInit ())).2.1.countP
            (isWarnOf Phase.resetWait) = 0
        ∧ ((runEpisode unitWorld (mockSM mockCfgSlowReset) 2
              (initState mockInit ())).2.2 = EpOutcome.stop
            ∨ (runEpisode unitWorld (mockSM mockCfgSlowReset) 2
                (initState mockInit ())).2.2 = EpOutcome.normal)
        ∧ ((runEpisode unitWorld (mockSM mockCfgSlowReset) 2
              (initState mockInit ())).2.2 ≠ EpOutcome.stop →
            ∀ n, runLoop unitWorld (mockSM mockCfgSlowReset) 2 (n + 1)
                (initState mockInit ())
              = ((runLoop unitWorld (mockSM mockCfgSlowReset) 2 n
                  (runEpisode unitWorld (mockSM mockCfgSlowReset) 2
                    (initState mockInit ())).1).1,
                 (runEpisode unitWorld (mockSM mockCfgSlowReset) 2
                   (initState mockInit ())).2.1
                   ++ (runLoop unitWorld (mockSM mockCfgSlowReset) 2 n
                      (runEpisode unitWorld (mockSM mockCfgSlowReset) 2
                        (initState mockInit ())).1).2.1,
                 (runLoop unitWorld (mockSM mockCfgSlowReset) 2 n
                   (runEpisode unitWorld (mockSM mockCfgSlowReset) 2
                     (initState mockInit ())).1).2.2))) :=
  ⟨by decide, by decide,
    soft_timeout_amended MockState Unit unitWorld (mockSM mockCfgSlowReset)
      2 (initState mockInit ()) (by decide) (by decide)⟩

end SO101
